import Mathlib

/- Shallow embedding of the U-value estimation engine of src/app.py
   (NanaWall_UValueCalculation). Real numbers model Python floats;
   Python exceptions raised by the engine are modelled by Except. -/

namespace UValue

/-- Error taxonomy of the engine. `invalidUnit` models the ValueError raised
at each unit-conversion site - the only exception any code path of
estimate_u_value raises. Modelled from the spec: `divisionByZero` and
`nonPositiveDimension` are the spec's DivisionByZero and
NonPositiveDimension failure conditions; no code path in src/app.py raises
either (the engine performs no dimension validation of its own, and the
area-weighted blend's numerator is an np.float64 from the lstsq unpacking,
so dividing it by a zero A_total yields inf/nan with a RuntimeWarning - a
full dict is still returned, never a ZeroDivisionError). -/
inductive Err where
  | invalidUnit : Err
  | divisionByZero : Err
  | nonPositiveDimension : Err
deriving DecidableEq

/-- Python's str.lower(), as used on the ASCII unit tokens of the engine. -/
def lowerString (s : String) : String := ⟨s.data.map Char.toLower⟩

/-- Python's str.upper(), as used on the ASCII unit tokens of the engine. -/
def upperString (s : String) : String := ⟨s.data.map Char.toUpper⟩

/-- BTU/hr·ft²·°F to W/m²K conversion factor (src/app.py line 23). -/
def BTU_TO_W : ℝ := 5.678

/-- Convert a length to mm (src/app.py lines 25-39). Units "mm", "m",
"ft", "in", matched case-insensitively; anything else raises ValueError. -/
noncomputable def length_to_mm (value : ℝ) (unit : String) : Except Err ℝ :=
  let u := lowerString unit
  if u = "mm" then .ok value
  else if u = "m" then .ok (value * 1000.0)
  else if u = "ft" then .ok (value * 304.8)
  else if u = "in" then .ok (value * 25.4)
  else .error .invalidUnit

/-- Convert a length from mm to the given unit (src/app.py lines 41-55). -/
noncomputable def mm_to_length (value_mm : ℝ) (unit : String) : Except Err ℝ :=
  let u := lowerString unit
  if u = "mm" then .ok value_mm
  else if u = "m" then .ok (value_mm / 1000.0)
  else if u = "ft" then .ok (value_mm / 304.8)
  else if u = "in" then .ok (value_mm / 25.4)
  else .error .invalidUnit

/-- Convert a U-value to W/m²K (src/app.py lines 57-67): "W" is identity,
"BTU" multiplies by BTU_TO_W, matched case-insensitively on the upper-cased
token; anything else raises ValueError. -/
noncomputable def u_to_metric (u_value : ℝ) (unit : String) : Except Err ℝ :=
  let u := upperString unit
  if u = "W" then .ok u_value
  else if u = "BTU" then .ok (u_value * BTU_TO_W)
  else .error .invalidUnit

/-- Convert a U-value from W/m²K to BTU/hr·ft²·°F (src/app.py lines 69-71). -/
noncomputable def u_to_btu (u_value_metric : ℝ) : ℝ :=
  u_value_metric / BTU_TO_W

/-- Effective frame width and edge-zone width from the perimeter
(src/app.py lines 73-86); Python's `x ** 0.5` is the square root. -/
noncomputable def dynamic_frame_and_edge (width_mm height_mm : ℝ) : ℝ × ℝ :=
  let perimeter_mm := 2.0 * (width_mm + height_mm)
  let frame_width_mm := max 40.0 (min 100.0 (0.015 * Real.sqrt perimeter_mm))
  let edge_zone_mm := max 30.0 (min 80.0 (0.010 * Real.sqrt perimeter_mm))
  (frame_width_mm, edge_zone_mm)

/-- The glass / edge / frame area partition of the total area, in m². -/
structure Areas where
  A_total : ℝ
  A_glass : ℝ
  A_edge : ℝ
  A_frame : ℝ

/-- Area partition (src/app.py lines 184-199): total and glass rectangles,
edge annulus clamped to be nonnegative, frame as the remainder. -/
noncomputable def partition_areas (width_mm height_mm frame_width_mm edge_zone_mm : ℝ) :
    Areas :=
  let A_total := (width_mm * height_mm) / 1000000
  let A_glass := ((width_mm - 2 * frame_width_mm) *
    (height_mm - 2 * frame_width_mm)) / 1000000
  let A_edge := max 0.0 (((width_mm - 2 * frame_width_mm + 2 * edge_zone_mm) *
    (height_mm - 2 * frame_width_mm + 2 * edge_zone_mm) -
    (width_mm - 2 * frame_width_mm - 2 * edge_zone_mm) *
    (height_mm - 2 * frame_width_mm - 2 * edge_zone_mm)) / 1000000)
  let A_frame := A_total - A_glass - A_edge
  { A_total := A_total, A_glass := A_glass, A_edge := A_edge, A_frame := A_frame }

/-- Modelled behavior of `np.linalg.lstsq` (src/app.py line 118) on the
rank-deficient system built there: the coefficient matrix is
`[[a, b], [a, b]]` (both rows identical) and the right-hand side is
`(y1, y2)`. numpy's lstsq returns the minimum-norm least-squares solution;
for this rank-one matrix that is the closed form below (the residual is
minimized exactly when `a*x + b*y = (y1 + y2) / 2`, and the minimum-norm
point of that line is its projection through `(a, b)`). -/
noncomputable def lstsq_rank1 (a b y1 y2 : ℝ) : ℝ × ℝ :=
  let s := (y1 + y2) / 2
  let d := a ^ 2 + b ^ 2
  if d = 0 then (0, 0) else (a * s / d, b * s / d)

/-- Back-calculate frame and edge U-values from the two reference cases
(src/app.py lines 88-119): rows `[A_frame, A_edge]` (identical in both
equations), right-hand sides `U_total_i * A_total - U_glass_i * A_glass`,
solved by least squares. -/
noncomputable def solve_frame_and_edge_u
    (U_glass1_metric U_total1_metric U_glass2_metric U_total2_metric
      A_glass A_frame A_edge : ℝ) : ℝ × ℝ :=
  let A_total := A_glass + A_frame + A_edge
  lstsq_rank1 A_frame A_edge
    (U_total1_metric * A_total - U_glass1_metric * A_glass)
    (U_total2_metric * A_total - U_glass2_metric * A_glass)

/-- Squared residual of a candidate `(x, y)` for the 2x2 system of
src/app.py lines 106-116: both equations share the coefficients
`(A_frame, A_edge)` and differ only in the right-hand side. -/
noncomputable def residual2 (A_frame A_edge b1 b2 x y : ℝ) : ℝ :=
  (A_frame * x + A_edge * y - b1) ^ 2 + (A_frame * x + A_edge * y - b2) ^ 2

/-- Frame recess adjustment (src/app.py lines 208-212): both factors are
clamped to [0, 1] and the frame U-value is scaled by
`1 - recess_fraction * recess_effectiveness`. -/
noncomputable def recess_adjust (U_frame_metric recess_fraction recess_effectiveness : ℝ) :
    ℝ :=
  U_frame_metric *
    (1.0 - max 0.0 (min 1.0 recess_fraction) * max 0.0 (min 1.0 recess_effectiveness))

/-- Aspect ratio (src/app.py line 222), with the near-zero-width guard. -/
noncomputable def aspect_ratio (width_m height_m : ℝ) : ℝ :=
  height_m / max width_m 0.000001

/-- Aspect-ratio penalty factor (src/app.py line 226). -/
noncomputable def aspect_factor (a_ratio : ℝ) : ℝ :=
  1.0 + 0.02 * |a_ratio - 1.0|

/-- Size factor relative to the 2m x 2m reference (src/app.py line 223). -/
noncomputable def size_factor (width_mm height_mm : ℝ) : ℝ :=
  (width_mm * height_mm) / (2000.0 * 2000.0)

/-- Non-linear size correction (src/app.py line 229). -/
noncomputable def size_factor_correction (s_factor : ℝ) : ℝ :=
  Real.exp (-0.06 * (s_factor - 1.0))

/-- Round half to even (banker's rounding), the rule of Python's round(). -/
noncomputable def roundHalfEven (x : ℝ) : ℤ :=
  if x - ⌊x⌋ < 1 / 2 then ⌊x⌋
  else if 1 / 2 < x - ⌊x⌋ then ⌊x⌋ + 1
  else if Even ⌊x⌋ then ⌊x⌋ else ⌊x⌋ + 1

/-- Python's round(x, 3): round to three decimal places. -/
noncomputable def round3 (x : ℝ) : ℝ :=
  (roundHalfEven (1000 * x) : ℝ) / 1000

/-- All quantities computed by one estimation run, before the rounding
applied by the return statement of src/app.py lines 234-261. -/
structure RawResult where
  U_final_metric : ℝ
  U_final_btu : ℝ
  areas : Areas
  U_glass_metric : ℝ
  U_edge_metric : ℝ
  U_frame_metric : ℝ
  U_frame_adj_metric : ℝ
  a_ratio : ℝ
  s_factor : ℝ
  frame_width_mm : ℝ
  edge_zone_mm : ℝ
  scaled_width : ℝ
  scaled_height : ℝ
  panels : ℤ

/-- The U-components block of the returned dict (src/app.py lines 245-250). -/
structure UComponents where
  U_glass : ℝ
  U_edge : ℝ
  U_frame_raw : ℝ
  U_frame_adjusted : ℝ

/-- The debug block of the returned dict (src/app.py lines 252-260). -/
structure DebugInfo where
  a_ratio : ℝ
  s_factor : ℝ
  frame_width_mm : ℝ
  edge_zone_mm : ℝ
  scaled_width : ℝ
  scaled_height : ℝ
  panels : ℤ

/-- The dict returned by estimate_u_value (src/app.py lines 234-261). -/
structure EstimationResult where
  U_metric : ℝ
  U_btu : ℝ
  areas_m2 : Areas
  U_components_metric : UComponents
  debug : DebugInfo

/-- The post-conversion pipeline of estimate_u_value (src/app.py lines
181-232), as a pure function of the converted inputs: geometry, area
partition, reference solve, recess adjustment, area-weighted blend,
aspect and size corrections. -/
noncomputable def raw_of (width_mm height_mm U_glass_metric U_glass1_metric
    U_total1_metric U_glass2_metric U_total2_metric scaled_width scaled_height : ℝ)
    (panels : ℤ) (recess_fraction recess_effectiveness : ℝ) : RawResult :=
  let fe := dynamic_frame_and_edge width_mm height_mm
  let P := partition_areas width_mm height_mm fe.1 fe.2
  let Ufe := solve_frame_and_edge_u U_glass1_metric U_total1_metric
    U_glass2_metric U_total2_metric P.A_glass P.A_frame P.A_edge
  let U_frame_adj_metric := recess_adjust Ufe.1 recess_fraction recess_effectiveness
  let U_weighted_metric := (U_glass_metric * P.A_glass + Ufe.2 * P.A_edge +
    U_frame_adj_metric * P.A_frame) / P.A_total
  let a_ratio := aspect_ratio (width_mm / 1000.0) (height_mm / 1000.0)
  let s_factor := size_factor width_mm height_mm
  let U_final_metric := U_weighted_metric * aspect_factor a_ratio *
    size_factor_correction s_factor
  { U_final_metric := U_final_metric
    U_final_btu := u_to_btu U_final_metric
    areas := P
    U_glass_metric := U_glass_metric
    U_edge_metric := Ufe.2
    U_frame_metric := Ufe.1
    U_frame_adj_metric := U_frame_adj_metric
    a_ratio := a_ratio
    s_factor := s_factor
    frame_width_mm := fe.1
    edge_zone_mm := fe.2
    scaled_width := scaled_width
    scaled_height := scaled_height
    panels := panels }

/-- The computation of estimate_u_value (src/app.py lines 121-232) up to and
including the final U-values, before the rounding of the return statement:
multi-panel width scaling, unit conversions (each can raise ValueError),
then the pure pipeline `raw_of`. The conversions are the only failure
points: the area-weighted blend of lines 215-219 divides an np.float64
numerator (the lstsq solutions are np.float64 scalars), so a zero A_total
yields inf/nan silently rather than raising; those non-finite values have
no counterpart in ℝ, where Lean's total division returns 0 - no theorem
below relies on the blend's value when A_total is zero. -/
noncomputable def estimate_raw (width height : ℝ) (size_unit : String)
    (glass_u : ℝ) (glass_u_unit : String) (panels : ℤ)
    (ref_glass_u1 ref_total_u1 ref_glass_u2 ref_total_u2 : ℝ)
    (ref_u_unit : String) (recess_fraction recess_effectiveness : ℝ) :
    Except Err RawResult :=
  let width' := if 2 < panels then width * (2.0 / (panels : ℝ)) else width
  (length_to_mm width' size_unit).bind fun width_mm =>
  (length_to_mm height size_unit).bind fun height_mm =>
  (u_to_metric glass_u glass_u_unit).bind fun U_glass_metric =>
  (u_to_metric ref_glass_u1 ref_u_unit).bind fun U_glass1_metric =>
  (u_to_metric ref_total_u1 ref_u_unit).bind fun U_total1_metric =>
  (u_to_metric ref_glass_u2 ref_u_unit).bind fun U_glass2_metric =>
  (u_to_metric ref_total_u2 ref_u_unit).bind fun U_total2_metric =>
  .ok (raw_of width_mm height_mm U_glass_metric U_glass1_metric
    U_total1_metric U_glass2_metric U_total2_metric width' height panels
    recess_fraction recess_effectiveness)

/-- The return statement of estimate_u_value (src/app.py lines 234-261):
final and component U-values rounded to 3 decimals, except U_glass which is
passed through unrounded, and areas and debug diagnostics unrounded. -/
noncomputable def roundResult (r : RawResult) : EstimationResult :=
  { U_metric := round3 r.U_final_metric
    U_btu := round3 r.U_final_btu
    areas_m2 := r.areas
    U_components_metric :=
      { U_glass := r.U_glass_metric
        U_edge := round3 r.U_edge_metric
        U_frame_raw := round3 r.U_frame_metric
        U_frame_adjusted := round3 r.U_frame_adj_metric }
    debug :=
      { a_ratio := r.a_ratio
        s_factor := r.s_factor
        frame_width_mm := r.frame_width_mm
        edge_zone_mm := r.edge_zone_mm
        scaled_width := r.scaled_width
        scaled_height := r.scaled_height
        panels := r.panels } }

/-- estimate_u_value (src/app.py lines 121-261): the raw computation
followed by the rounding of the return statement. -/
noncomputable def estimate_u_value (width height : ℝ) (size_unit : String)
    (glass_u : ℝ) (glass_u_unit : String) (panels : ℤ)
    (ref_glass_u1 ref_total_u1 ref_glass_u2 ref_total_u2 : ℝ)
    (ref_u_unit : String) (recess_fraction recess_effectiveness : ℝ) :
    Except Err EstimationResult :=
  (estimate_raw width height size_unit glass_u glass_u_unit panels
    ref_glass_u1 ref_total_u1 ref_glass_u2 ref_total_u2 ref_u_unit
    recess_fraction recess_effectiveness).map roundResult

/-- Whether an estimation run returned a result (no exception). -/
def isOkE {ε α : Type} : Except ε α → Bool
  | .ok _ => true
  | .error _ => false

/- Token-level evaluation lemmas for the unit conversions. -/

lemma length_to_mm_mm (x : ℝ) : length_to_mm x "mm" = .ok x := rfl

lemma length_to_mm_m (x : ℝ) : length_to_mm x "m" = .ok (x * 1000.0) := rfl

lemma length_to_mm_ft (x : ℝ) : length_to_mm x "ft" = .ok (x * 304.8) := rfl

lemma length_to_mm_in (x : ℝ) : length_to_mm x "in" = .ok (x * 25.4) := rfl

lemma mm_to_length_mm (x : ℝ) : mm_to_length x "mm" = .ok x := rfl

lemma mm_to_length_m (x : ℝ) : mm_to_length x "m" = .ok (x / 1000.0) := rfl

lemma mm_to_length_ft (x : ℝ) : mm_to_length x "ft" = .ok (x / 304.8) := rfl

lemma mm_to_length_in (x : ℝ) : mm_to_length x "in" = .ok (x / 25.4) := rfl

lemma u_to_metric_W (x : ℝ) : u_to_metric x "W" = .ok x := rfl

lemma u_to_metric_BTU (x : ℝ) : u_to_metric x "BTU" = .ok (x * BTU_TO_W) := rfl

/- Field-level evaluation lemmas for the area partition. -/

lemma partition_A_total (w h fw ez : ℝ) :
    (partition_areas w h fw ez).A_total = (w * h) / 1000000 := rfl

lemma partition_A_glass (w h fw ez : ℝ) :
    (partition_areas w h fw ez).A_glass =
      ((w - 2 * fw) * (h - 2 * fw)) / 1000000 := rfl

lemma partition_A_edge (w h fw ez : ℝ) :
    (partition_areas w h fw ez).A_edge =
      max 0.0 (((w - 2 * fw + 2 * ez) * (h - 2 * fw + 2 * ez) -
        (w - 2 * fw - 2 * ez) * (h - 2 * fw - 2 * ez)) / 1000000) := rfl

lemma partition_A_frame (w h fw ez : ℝ) :
    (partition_areas w h fw ez).A_frame =
      (partition_areas w h fw ez).A_total - (partition_areas w h fw ez).A_glass -
        (partition_areas w h fw ez).A_edge := rfl

/-- C4: for every finite x > 0 and every supported length unit u in
{mm, m, ft, in}, converting x to millimeters and back returns exactly x
(the real-number model is exact, hence within the 1e-9 relative
floating-point tolerance of the claim). -/
theorem unit_round_trip (x : ℝ) (u : String) (hx : 0 < x)
    (hu : u = "mm" ∨ u = "m" ∨ u = "ft" ∨ u = "in") :
    (length_to_mm x u).bind (fun mm => mm_to_length mm u) = .ok x := by
  rcases hu with h | h | h | h <;> subst h
  · rw [length_to_mm_mm]; simp [Except.bind, mm_to_length_mm]
  · rw [length_to_mm_m]; simp [Except.bind, mm_to_length_m]; norm_num
  · rw [length_to_mm_ft]; simp [Except.bind, mm_to_length_ft]; norm_num
  · rw [length_to_mm_in]; simp [Except.bind, mm_to_length_in]; norm_num

/-- Witness for C4 at x = 3, u = "ft". -/
theorem unit_round_trip_w :
    (length_to_mm 3 "ft").bind (fun mm => mm_to_length mm "ft") = .ok 3 :=
  unit_round_trip 3 "ft" (by norm_num) (Or.inr (Or.inr (Or.inl rfl)))

/-- C2: for every input, the computed areas satisfy
A_glass + A_edge + A_frame = A_total exactly (the frame area is the
subtraction remainder), the edge area is clamped to be nonnegative, and
neither the glass area nor the frame area is clamped: each can be
negative (glass for a tiny door with a large frame width; frame at the
2000mm x 2000mm reference door with its derived 40mm frame and 30mm
edge-zone widths). -/
theorem area_partition_sums :
    (∀ w h fw ez : ℝ,
      (partition_areas w h fw ez).A_glass + (partition_areas w h fw ez).A_edge +
          (partition_areas w h fw ez).A_frame = (partition_areas w h fw ez).A_total ∧
        0 ≤ (partition_areas w h fw ez).A_edge) ∧
    (∃ w h fw ez : ℝ, (partition_areas w h fw ez).A_glass < 0) ∧
    (∃ w h fw ez : ℝ, (partition_areas w h fw ez).A_frame < 0) := by
  refine ⟨fun w h fw ez => ⟨?_, ?_⟩, ⟨10, 100, 40, 30, ?_⟩, ⟨2000, 2000, 40, 30, ?_⟩⟩
  · rw [partition_A_frame]; ring
  · rw [partition_A_edge]; exact le_max_iff.mpr (Or.inl (by norm_num))
  · rw [partition_A_glass]; norm_num
  · rw [partition_A_frame, partition_A_total, partition_A_glass, partition_A_edge]
    norm_num [max_def]

/- Least-squares properties of the modelled lstsq solver. -/

lemma lstsq_rank1_least_squares (a b y1 y2 x y : ℝ) :
    residual2 a b y1 y2 (lstsq_rank1 a b y1 y2).1 (lstsq_rank1 a b y1 y2).2 ≤
      residual2 a b y1 y2 x y := by
  by_cases hd : a ^ 2 + b ^ 2 = 0
  · have ha : a = 0 := by nlinarith [sq_nonneg a, sq_nonneg b]
    have hb : b = 0 := by nlinarith [sq_nonneg a, sq_nonneg b]
    simp [lstsq_rank1, residual2, ha, hb]
  · have hd0 : 0 < a ^ 2 + b ^ 2 :=
      lt_of_le_of_ne (by positivity) (Ne.symm hd)
    simp only [lstsq_rank1, if_neg hd, residual2]
    have key : a * (a * ((y1 + y2) / 2) / (a ^ 2 + b ^ 2)) +
        b * (b * ((y1 + y2) / 2) / (a ^ 2 + b ^ 2)) = (y1 + y2) / 2 := by
      field_simp; ring
    rw [key]
    nlinarith [sq_nonneg (a * x + b * y - (y1 + y2) / 2)]

lemma lstsq_rank1_minnorm (a b y1 y2 x y : ℝ)
    (h : residual2 a b y1 y2 x y ≤
      residual2 a b y1 y2 (lstsq_rank1 a b y1 y2).1 (lstsq_rank1 a b y1 y2).2) :
    (lstsq_rank1 a b y1 y2).1 ^ 2 + (lstsq_rank1 a b y1 y2).2 ^ 2 ≤
      x ^ 2 + y ^ 2 := by
  by_cases hd : a ^ 2 + b ^ 2 = 0
  · simp only [lstsq_rank1, if_pos hd]
    norm_num
    positivity
  · have hd0 : 0 < a ^ 2 + b ^ 2 :=
      lt_of_le_of_ne (by positivity) (Ne.symm hd)
    simp only [lstsq_rank1, if_neg hd, residual2] at h ⊢
    have key : a * (a * ((y1 + y2) / 2) / (a ^ 2 + b ^ 2)) +
        b * (b * ((y1 + y2) / 2) / (a ^ 2 + b ^ 2)) = (y1 + y2) / 2 := by
      field_simp; ring
    rw [key] at h
    have ht : a * x + b * y = (y1 + y2) / 2 := by
      nlinarith [sq_nonneg (a * x + b * y - (y1 + y2) / 2)]
    have hs : (a * ((y1 + y2) / 2) / (a ^ 2 + b ^ 2)) ^ 2 +
        (b * ((y1 + y2) / 2) / (a ^ 2 + b ^ 2)) ^ 2 =
        ((y1 + y2) / 2) ^ 2 / (a ^ 2 + b ^ 2) := by
      field_simp; ring
    rw [hs, div_le_iff hd0, ← ht]
    nlinarith [sq_nonneg (a * y - b * x)]

/-- C3: solve_frame_and_edge_u builds a 2x2 system whose two equations share
the coefficients (A_frame, A_edge) and differ only in the right-hand side
(see `residual2`, whose two summands use the same row); for every input,
including this structurally rank-deficient case, the returned pair
(U_frame, U_edge) is a least-squares solution (its residual is minimal)
of minimum norm among all candidates whose residual is at least as small,
and it is returned totally - no input fails or raises. -/
theorem solver_minnorm_least_squares (g1 t1 g2 t2 Ag Af Ae : ℝ) :
    (∀ x y : ℝ,
      residual2 Af Ae (t1 * (Ag + Af + Ae) - g1 * Ag) (t2 * (Ag + Af + Ae) - g2 * Ag)
          (solve_frame_and_edge_u g1 t1 g2 t2 Ag Af Ae).1
          (solve_frame_and_edge_u g1 t1 g2 t2 Ag Af Ae).2 ≤
        residual2 Af Ae (t1 * (Ag + Af + Ae) - g1 * Ag)
          (t2 * (Ag + Af + Ae) - g2 * Ag) x y) ∧
    (∀ x y : ℝ,
      residual2 Af Ae (t1 * (Ag + Af + Ae) - g1 * Ag)
          (t2 * (Ag + Af + Ae) - g2 * Ag) x y ≤
        residual2 Af Ae (t1 * (Ag + Af + Ae) - g1 * Ag) (t2 * (Ag + Af + Ae) - g2 * Ag)
          (solve_frame_and_edge_u g1 t1 g2 t2 Ag Af Ae).1
          (solve_frame_and_edge_u g1 t1 g2 t2 Ag Af Ae).2 →
      (solve_frame_and_edge_u g1 t1 g2 t2 Ag Af Ae).1 ^ 2 +
          (solve_frame_and_edge_u g1 t1 g2 t2 Ag Af Ae).2 ^ 2 ≤
        x ^ 2 + y ^ 2) := by
  constructor
  · intro x y
    exact lstsq_rank1_least_squares Af Ae _ _ x y
  · intro x y h
    exact lstsq_rank1_minnorm Af Ae _ _ x y h

/-- Witness for C3 at the system with A_frame = A_edge = 1, A_glass = 0, and
right-hand sides 0 and 2: the returned solution beats the candidate (3, 4)
on residual and the equal-residual candidate (1, 0) on norm. -/
theorem solver_minnorm_least_squares_w :
    residual2 1 1 (0 * (0 + 1 + 1) - 0 * 0) (1 * (0 + 1 + 1) - 0 * 0)
        (solve_frame_and_edge_u 0 0 0 1 0 1 1).1
        (solve_frame_and_edge_u 0 0 0 1 0 1 1).2 ≤
      residual2 1 1 (0 * (0 + 1 + 1) - 0 * 0) (1 * (0 + 1 + 1) - 0 * 0) 3 4 ∧
    (solve_frame_and_edge_u 0 0 0 1 0 1 1).1 ^ 2 +
        (solve_frame_and_edge_u 0 0 0 1 0 1 1).2 ^ 2 ≤ 1 ^ 2 + 0 ^ 2 := by
  have h := solver_minnorm_least_squares 0 0 0 1 0 1 1
  refine ⟨h.1 3 4, h.2 1 0 ?_⟩
  norm_num [residual2, solve_frame_and_edge_u, lstsq_rank1]

/-- The reference solve can return a negative frame U-value: the areas below
are exactly those of the 2000mm x 2000mm door (frame width 40, edge zone 30),
whose frame area is negative, with reference cases of low glass U and high
total U. Supports the correction of the recess-monotonicity claim. -/
lemma solver_negative_frame_u :
    (solve_frame_and_edge_u 0.01 1 0.01 1 3.6864 (-0.1472) 0.4608).1 < 0 := by
  norm_num [solve_frame_and_edge_u, lstsq_rank1]

/-- C6 counterexample: with U_frame = -1 (reachable, see
`solver_negative_frame_u`), recess_effectiveness = 0.6 > 0 fixed and recess
fractions 0 <= 1, the adjusted frame U-value with the larger fraction is
strictly greater, contradicting the claimed monotonicity. -/
theorem recess_monotonic_ce :
    ¬ (recess_adjust (-1) 1 0.6 ≤ recess_adjust (-1) 0 0.6) := by
  norm_num [recess_adjust, max_def, min_def]

/-- C6 amended: for a nonnegative U_frame (as produced by physically
meaningful calibrations), with recess_effectiveness fixed, increasing the
recess fraction does not increase the adjusted frame U-value; for negative
U_frame the inequality reverses (see the counterexample). -/
theorem recess_monotonic (U_frame_metric re rf1 rf2 : ℝ)
    (hU : 0 ≤ U_frame_metric) (hre : 0 < re) (h12 : rf1 ≤ rf2) :
    recess_adjust U_frame_metric rf2 re ≤ recess_adjust U_frame_metric rf1 re := by
  unfold recess_adjust
  have c1 : max 0.0 (min 1.0 rf1) ≤ max 0.0 (min 1.0 rf2) :=
    max_le_max le_rfl (min_le_min le_rfl h12)
  have e0 : (0 : ℝ) ≤ max 0.0 (min 1.0 re) := le_max_iff.mpr (Or.inl (by norm_num))
  nlinarith [mul_le_mul_of_nonneg_right c1 e0]

/-- Witness for C6's amended claim at U_frame = 2, re = 0.6, rf1 = 0.2,
rf2 = 0.7. -/
theorem recess_monotonic_w :
    recess_adjust 2 0.7 0.6 ≤ recess_adjust 2 0.2 0.6 :=
  recess_monotonic 2 0.6 0.2 0.7 (by norm_num) (by norm_num) (by norm_num)

/-- C7: the size correction exp(-0.06 * (size_factor - 1)) is strictly
positive for every size factor; it is non-increasing as the size factor
grows; and holding all else fixed, increasing both width and height does
not increase it. -/
theorem size_correction_props :
    (∀ s_factor : ℝ, 0 < size_factor_correction s_factor) ∧
    (∀ s1 s2 : ℝ, s1 ≤ s2 →
      size_factor_correction s2 ≤ size_factor_correction s1) ∧
    (∀ w1 h1 w2 h2 : ℝ, 0 < w1 → 0 < h1 → w1 ≤ w2 → h1 ≤ h2 →
      size_factor_correction (size_factor w2 h2) ≤
        size_factor_correction (size_factor w1 h1)) := by
  have mono : ∀ s1 s2 : ℝ, s1 ≤ s2 →
      size_factor_correction s2 ≤ size_factor_correction s1 := by
    intro s1 s2 h
    exact Real.exp_le_exp.mpr (by nlinarith)
  refine ⟨fun s => Real.exp_pos _, mono, fun w1 h1 w2 h2 hw1 hh1 hw hh => ?_⟩
  apply mono
  unfold size_factor
  have hm : w1 * h1 ≤ w2 * h2 :=
    mul_le_mul hw hh (le_of_lt hh1) (le_trans (le_of_lt hw1) hw)
  have h4 : (0 : ℝ) < 2000.0 * 2000.0 := by norm_num
  exact (div_le_div_right h4).mpr hm

/-- Witness for C7 at size factors 2 <= 3 and dimensions 2000x2000 <=
3000x3000. -/
theorem size_correction_props_w :
    0 < size_factor_correction 5 ∧
    size_factor_correction 3 ≤ size_factor_correction 2 ∧
    size_factor_correction (size_factor 3000 3000) ≤
      size_factor_correction (size_factor 2000 2000) :=
  ⟨size_correction_props.1 5,
    size_correction_props.2.1 2 3 (by norm_num),
    size_correction_props.2.2 2000 2000 3000 3000 (by norm_num) (by norm_num)
      (by norm_num) (by norm_num)⟩

/-- C8: the aspect factor is 1 + 0.02 * |aspect - 1| with
aspect = height_m / max(width_m, 1e-6); the guard makes the denominator
strictly positive for every width, and for positive dimensions the factor
equals 1 exactly when the aspect ratio is 1 and is strictly greater than 1
otherwise. -/
theorem aspect_factor_props :
    (∀ width_m : ℝ, 0 < max width_m 0.000001) ∧
    (∀ width_m height_m : ℝ, 0 < width_m → 0 < height_m →
      (aspect_factor (aspect_ratio width_m height_m) = 1 ↔
        aspect_ratio width_m height_m = 1)) ∧
    (∀ width_m height_m : ℝ, 0 < width_m → 0 < height_m →
      aspect_ratio width_m height_m ≠ 1 →
      1 < aspect_factor (aspect_ratio width_m height_m)) := by
  have factor_eq_one : ∀ a : ℝ, aspect_factor a = 1 ↔ a = 1 := by
    intro a
    unfold aspect_factor
    constructor
    · intro h
      have habs : |a - 1.0| = 0 := by
        have h2 : 0.02 * |a - 1.0| = 0 := by linarith
        have h3 : (0.02 : ℝ) ≠ 0 := by norm_num
        rcases mul_eq_zero.mp h2 with h4 | h4
        · exact absurd h4 h3
        · exact h4
      have := abs_eq_zero.mp habs
      norm_num at this ⊢
      linarith
    · intro h
      subst h
      norm_num
  refine ⟨fun w => lt_max_iff.mpr (Or.inr (by norm_num)),
    fun w h hw hh => factor_eq_one _, fun w h hw hh hne => ?_⟩
  unfold aspect_factor
  have : 0 < |aspect_ratio w h - 1.0| := by
    apply abs_pos.mpr
    intro h0
    apply hne
    have : aspect_ratio w h = 1.0 := by linarith
    norm_num at this
    exact this
  nlinarith

/-- Witness for C8 at the square door 2x2 (factor exactly 1) and at the
non-square door 2x3 (factor strictly above 1). -/
theorem aspect_factor_props_w :
    (aspect_factor (aspect_ratio 2 2) = 1 ↔ aspect_ratio 2 2 = 1) ∧
    1 < aspect_factor (aspect_ratio 2 3) := by
  refine ⟨aspect_factor_props.2.1 2 2 (by norm_num) (by norm_num),
    aspect_factor_props.2.2 2 3 (by norm_num) (by norm_num) ?_⟩
  norm_num [aspect_ratio, max_def]

/- Field-level evaluation lemmas for raw_of and roundResult. -/

lemma raw_of_scaled_width (wmm hmm Ug Ug1 Ut1 Ug2 Ut2 sw sh : ℝ) (p : ℤ) (rf re : ℝ) :
    (raw_of wmm hmm Ug Ug1 Ut1 Ug2 Ut2 sw sh p rf re).scaled_width = sw := rfl

lemma raw_of_scaled_height (wmm hmm Ug Ug1 Ut1 Ug2 Ut2 sw sh : ℝ) (p : ℤ) (rf re : ℝ) :
    (raw_of wmm hmm Ug Ug1 Ut1 Ug2 Ut2 sw sh p rf re).scaled_height = sh := rfl

lemma raw_of_frame_width (wmm hmm Ug Ug1 Ut1 Ug2 Ut2 sw sh : ℝ) (p : ℤ) (rf re : ℝ) :
    (raw_of wmm hmm Ug Ug1 Ut1 Ug2 Ut2 sw sh p rf re).frame_width_mm =
      (dynamic_frame_and_edge wmm hmm).1 := rfl

lemma raw_of_edge_zone (wmm hmm Ug Ug1 Ut1 Ug2 Ut2 sw sh : ℝ) (p : ℤ) (rf re : ℝ) :
    (raw_of wmm hmm Ug Ug1 Ut1 Ug2 Ut2 sw sh p rf re).edge_zone_mm =
      (dynamic_frame_and_edge wmm hmm).2 := rfl

lemma raw_of_U_glass (wmm hmm Ug Ug1 Ut1 Ug2 Ut2 sw sh : ℝ) (p : ℤ) (rf re : ℝ) :
    (raw_of wmm hmm Ug Ug1 Ut1 Ug2 Ut2 sw sh p rf re).U_glass_metric = Ug := rfl

lemma raw_of_A_total (wmm hmm Ug Ug1 Ut1 Ug2 Ut2 sw sh : ℝ) (p : ℤ) (rf re : ℝ) :
    (raw_of wmm hmm Ug Ug1 Ut1 Ug2 Ut2 sw sh p rf re).areas.A_total =
      (wmm * hmm) / 1000000 := rfl

lemma roundResult_areas (r : RawResult) : (roundResult r).areas_m2 = r.areas := rfl

lemma roundResult_scaled_width (r : RawResult) :
    (roundResult r).debug.scaled_width = r.scaled_width := rfl

lemma roundResult_scaled_height (r : RawResult) :
    (roundResult r).debug.scaled_height = r.scaled_height := rfl

lemma roundResult_frame_width (r : RawResult) :
    (roundResult r).debug.frame_width_mm = r.frame_width_mm := rfl

lemma roundResult_edge_zone (r : RawResult) :
    (roundResult r).debug.edge_zone_mm = r.edge_zone_mm := rfl

lemma roundResult_U_glass (r : RawResult) :
    (roundResult r).U_components_metric.U_glass = r.U_glass_metric := rfl

/-- Evaluation of estimate_raw when every unit conversion succeeds: the run
returns the raw pipeline result (the conversions are the only failure
points of src/app.py lines 121-232). -/
lemma estimate_raw_eq_ok (width height sw : ℝ) (su gu ru : String) (glass_u : ℝ)
    (p : ℤ) (g1 t1 g2 t2 rf re wmm hmm Ug Ug1 Ut1 Ug2 Ut2 : ℝ)
    (hswdef : (if 2 < p then width * (2.0 / (p : ℝ)) else width) = sw)
    (hw : length_to_mm sw su = .ok wmm)
    (hh : length_to_mm height su = .ok hmm)
    (hgl : u_to_metric glass_u gu = .ok Ug)
    (h1 : u_to_metric g1 ru = .ok Ug1)
    (h2 : u_to_metric t1 ru = .ok Ut1)
    (h3 : u_to_metric g2 ru = .ok Ug2)
    (h4 : u_to_metric t2 ru = .ok Ut2) :
    estimate_raw width height su glass_u gu p g1 t1 g2 t2 ru rf re =
      .ok (raw_of wmm hmm Ug Ug1 Ut1 Ug2 Ut2 sw height p rf re) := by
  simp only [estimate_raw, hswdef, hw, hh, hgl, h1, h2, h3, h4, Except.bind]

/-- Every supported length unit has a fixed positive conversion factor. -/
lemma length_factor_of_supported (u : String)
    (hu : u = "mm" ∨ u = "m" ∨ u = "ft" ∨ u = "in") :
    ∃ c : ℝ, 0 < c ∧ ∀ x : ℝ, length_to_mm x u = .ok (x * c) := by
  rcases hu with h | h | h | h <;> subst h
  · exact ⟨1, by norm_num, fun x => by rw [length_to_mm_mm, mul_one]⟩
  · exact ⟨1000.0, by norm_num, fun x => length_to_mm_m x⟩
  · exact ⟨304.8, by norm_num, fun x => length_to_mm_ft x⟩
  · exact ⟨25.4, by norm_num, fun x => length_to_mm_in x⟩

/-- Every supported U-value unit converts successfully. -/
lemma u_metric_of_supported (u : String) (hu : u = "W" ∨ u = "BTU") (x : ℝ) :
    ∃ v : ℝ, u_to_metric x u = .ok v := by
  rcases hu with h | h <;> subst h
  · exact ⟨x, u_to_metric_W x⟩
  · exact ⟨x * BTU_TO_W, u_to_metric_BTU x⟩

/- Rounding lemmas. -/

lemma roundHalfEven_close (x : ℝ) : |(roundHalfEven x : ℝ) - x| ≤ 1 / 2 := by
  unfold roundHalfEven
  have h1 := Int.floor_le x
  have h2 := Int.lt_floor_add_one x
  split_ifs with ha hb hc <;> rw [abs_le] <;> push_cast <;>
    constructor <;> linarith

lemma round3_close (x : ℝ) : |round3 x - x| ≤ 1 / 2000 := by
  unfold round3
  have h := roundHalfEven_close (1000 * x)
  rw [abs_le] at h ⊢
  constructor <;> [linarith [h.1]; linarith [h.2]]

/-- C10: for every call with positive width and height and supported unit
tokens, the total area is strictly positive, so the area-weighted blend's
division is well-defined and the run returns a result (the
division-by-zero branch is unreachable). -/
theorem blend_division_safe (width height : ℝ) (su gu ru : String) (glass_u : ℝ)
    (p : ℤ) (g1 t1 g2 t2 rf re : ℝ)
    (hsu : su = "mm" ∨ su = "m" ∨ su = "ft" ∨ su = "in")
    (hgu : gu = "W" ∨ gu = "BTU") (hru : ru = "W" ∨ ru = "BTU")
    (hw : 0 < width) (hh : 0 < height) :
    ∃ r, estimate_u_value width height su glass_u gu p g1 t1 g2 t2 ru rf re =
        .ok r ∧ 0 < r.areas_m2.A_total := by
  obtain ⟨c, hc, hconv⟩ := length_factor_of_supported su hsu
  obtain ⟨Ug, hUg⟩ := u_metric_of_supported gu hgu glass_u
  obtain ⟨Ug1, hUg1⟩ := u_metric_of_supported ru hru g1
  obtain ⟨Ut1, hUt1⟩ := u_metric_of_supported ru hru t1
  obtain ⟨Ug2, hUg2⟩ := u_metric_of_supported ru hru g2
  obtain ⟨Ut2, hUt2⟩ := u_metric_of_supported ru hru t2
  have hswpos : 0 < (if 2 < p then width * (2.0 / (p : ℝ)) else width) := by
    split_ifs with h2p
    · have hp : (0 : ℝ) < (p : ℝ) := by
        exact_mod_cast lt_trans (by norm_num : (0 : ℤ) < 2) h2p
      exact mul_pos hw (div_pos (by norm_num) hp)
    · exact hw
  have hApos : 0 < (if 2 < p then width * (2.0 / (p : ℝ)) else width) * c *
      (height * c) / 1000000 := by
    apply div_pos
    · exact mul_pos (mul_pos hswpos hc) (mul_pos hh hc)
    · norm_num
  have heq := estimate_raw_eq_ok width height
    (if 2 < p then width * (2.0 / (p : ℝ)) else width) su gu ru glass_u p
    g1 t1 g2 t2 rf re _ _ Ug Ug1 Ut1 Ug2 Ut2 rfl
    (hconv _) (hconv height) hUg hUg1 hUt1 hUg2 hUt2
  refine ⟨roundResult (raw_of ((if 2 < p then width * (2.0 / (p : ℝ)) else width) * c)
    (height * c) Ug Ug1 Ut1 Ug2 Ut2
    (if 2 < p then width * (2.0 / (p : ℝ)) else width) height p rf re), ?_, ?_⟩
  · unfold estimate_u_value
    rw [heq]
    rfl
  · rw [roundResult_areas, raw_of_A_total]
    exact hApos

/-- Witness for C10 at a 2m x 2m door with metric units. -/
theorem blend_division_safe_w :
    ∃ r, estimate_u_value 2 2 "m" 1.42 "W" 2 1.42 2.33 1.70 2.61 "W" 0 0.6 =
        .ok r ∧ 0 < r.areas_m2.A_total :=
  blend_division_safe 2 2 "m" "W" "W" 1.42 2 1.42 2.33 1.70 2.61 0 0.6
    (Or.inr (Or.inl rfl)) (Or.inl rfl) (Or.inl rfl) (by norm_num) (by norm_num)

/-- C1 counterexample: a call with width = -1 <= 0 (metric units, defaults
otherwise) does not raise NonPositiveDimension - it raises nothing at all
and returns a full result, refuting the claimed validation at the
orchestrator boundary. -/
theorem no_dimension_validation_ce :
    isOkE (estimate_u_value (-1) 2 "m" 0.3 "BTU" 2 0.25 0.41 0.30 0.46 "BTU" 0 0.6)
        = true ∧
      estimate_u_value (-1) 2 "m" 0.3 "BTU" 2 0.25 0.41 0.30 0.46 "BTU" 0 0.6 ≠
        .error .nonPositiveDimension := by
  have heq := estimate_raw_eq_ok (-1) 2 (-1) "m" "BTU" "BTU" 0.3 2
    0.25 0.41 0.30 0.46 0 0.6 ((-1) * 1000.0) (2 * 1000.0)
    (0.3 * BTU_TO_W) (0.25 * BTU_TO_W) (0.41 * BTU_TO_W) (0.30 * BTU_TO_W)
    (0.46 * BTU_TO_W)
    (by norm_num) (length_to_mm_m (-1)) (length_to_mm_m 2)
    (u_to_metric_BTU 0.3) (u_to_metric_BTU 0.25) (u_to_metric_BTU 0.41)
    (u_to_metric_BTU 0.30) (u_to_metric_BTU 0.46)
  constructor
  · unfold estimate_u_value
    rw [heq]
    rfl
  · unfold estimate_u_value
    rw [heq]
    simp [Except.map]

/-- C1 amended: estimate_u_value performs no dimension validation and never
raises NonPositiveDimension: any call with width <= 0 or height <= 0
(supported units, positive perimeter so that Python's perimeter ** 0.5
stays real) raises no error at all and returns a full result. In the code,
even a zero total area raises nothing: the blend's np.float64 division by
zero yields inf/nan silently. -/
theorem no_dimension_validation :
    (∀ (width height : ℝ) (su gu ru : String) (glass_u : ℝ) (p : ℤ)
        (g1 t1 g2 t2 rf re : ℝ),
      su = "mm" ∨ su = "m" ∨ su = "ft" ∨ su = "in" →
      gu = "W" ∨ gu = "BTU" → ru = "W" ∨ ru = "BTU" →
      width ≤ 0 → 0 < height → 0 < width + height →
      isOkE (estimate_u_value width height su glass_u gu p g1 t1 g2 t2 ru rf re)
        = true) ∧
    (∀ (width height : ℝ) (su gu ru : String) (glass_u : ℝ) (p : ℤ)
        (g1 t1 g2 t2 rf re : ℝ),
      su = "mm" ∨ su = "m" ∨ su = "ft" ∨ su = "in" →
      gu = "W" ∨ gu = "BTU" → ru = "W" ∨ ru = "BTU" →
      0 < width → height ≤ 0 → 0 < width + height →
      isOkE (estimate_u_value width height su glass_u gu p g1 t1 g2 t2 ru rf re)
        = true) := by
  have main : ∀ (width height : ℝ) (su gu ru : String) (glass_u : ℝ) (p : ℤ)
      (g1 t1 g2 t2 rf re : ℝ),
      su = "mm" ∨ su = "m" ∨ su = "ft" ∨ su = "in" →
      gu = "W" ∨ gu = "BTU" → ru = "W" ∨ ru = "BTU" →
      isOkE (estimate_u_value width height su glass_u gu p g1 t1 g2 t2 ru rf re)
        = true := by
    intro width height su gu ru glass_u p g1 t1 g2 t2 rf re hsu hgu hru
    obtain ⟨c, hc, hconv⟩ := length_factor_of_supported su hsu
    obtain ⟨Ug, hUg⟩ := u_metric_of_supported gu hgu glass_u
    obtain ⟨Ug1, hUg1⟩ := u_metric_of_supported ru hru g1
    obtain ⟨Ut1, hUt1⟩ := u_metric_of_supported ru hru t1
    obtain ⟨Ug2, hUg2⟩ := u_metric_of_supported ru hru g2
    obtain ⟨Ut2, hUt2⟩ := u_metric_of_supported ru hru t2
    have heq := estimate_raw_eq_ok width height
      (if 2 < p then width * (2.0 / (p : ℝ)) else width) su gu ru glass_u p
      g1 t1 g2 t2 rf re _ _ Ug Ug1 Ut1 Ug2 Ut2 rfl
      (hconv _) (hconv height) hUg hUg1 hUt1 hUg2 hUt2
    unfold estimate_u_value
    rw [heq]
    rfl
  exact ⟨fun width height su gu ru glass_u p g1 t1 g2 t2 rf re hsu hgu hru
      _hw _hh _hsum =>
        main width height su gu ru glass_u p g1 t1 g2 t2 rf re hsu hgu hru,
    fun width height su gu ru glass_u p g1 t1 g2 t2 rf re hsu hgu hru
      _hw _hh _hsum =>
        main width height su gu ru glass_u p g1 t1 g2 t2 rf re hsu hgu hru⟩

/-- Witness for C1's amended claim at width = 0 (zero width, full result
returned) and at height = -1 (negative height, full result returned). -/
theorem no_dimension_validation_w :
    isOkE (estimate_u_value 0 3 "ft" 0.3 "BTU" 4 0.25 0.41 0.30 0.46 "BTU" 0 0.6)
        = true ∧
      isOkE (estimate_u_value 5 (-1) "ft" 0.3 "BTU" 2 0.25 0.41 0.30 0.46 "BTU" 0 0.6)
        = true :=
  ⟨no_dimension_validation.1 0 3 "ft" "BTU" "BTU" 0.3 4 0.25 0.41 0.30 0.46
      0 0.6 (Or.inr (Or.inr (Or.inl rfl))) (Or.inr rfl) (Or.inr rfl)
      (by norm_num) (by norm_num) (by norm_num),
    no_dimension_validation.2 5 (-1) "ft" "BTU" "BTU" 0.3 2 0.25 0.41 0.30 0.46
      0 0.6 (Or.inr (Or.inr (Or.inl rfl))) (Or.inr rfl) (Or.inr rfl)
      (by norm_num) (by norm_num) (by norm_num)⟩

/-- C5: the width fed into geometry is the caller's width times 2/panels
when panels > 2 and the caller's width unchanged when panels <= 2 (the
hypothesis `hswdef` states the scaled width in exactly that form), the
height is never rescaled, the returned scaled_width / scaled_height
diagnostics report exactly these effective dimensions, and the geometry
diagnostics (frame width, edge zone, total area) are computed from the
converted scaled dimensions. -/
theorem panel_scaling (width height : ℝ) (su gu ru : String) (glass_u : ℝ)
    (p : ℤ) (g1 t1 g2 t2 rf re sw wmm hmm : ℝ)
    (hswdef : (if 2 < p then width * (2.0 / (p : ℝ)) else width) = sw)
    (hw : length_to_mm sw su = .ok wmm)
    (hh : length_to_mm height su = .ok hmm)
    (hok : isOkE (estimate_u_value width height su glass_u gu p g1 t1 g2 t2
      ru rf re) = true) :
    (estimate_u_value width height su glass_u gu p g1 t1 g2 t2 ru rf re).map
        (fun r => (r.debug.scaled_width, r.debug.scaled_height,
          r.debug.frame_width_mm, r.debug.edge_zone_mm, r.areas_m2.A_total)) =
      .ok (sw, height, (dynamic_frame_and_edge wmm hmm).1,
        (dynamic_frame_and_edge wmm hmm).2, wmm * hmm / 1000000) := by
  rcases hgl : u_to_metric glass_u gu with e | Ug
  · unfold estimate_u_value at hok
    simp [estimate_raw, hswdef, hw, hh, hgl, Except.bind, Except.map, isOkE] at hok
  rcases hg1 : u_to_metric g1 ru with e | Ug1
  · unfold estimate_u_value at hok
    simp [estimate_raw, hswdef, hw, hh, hgl, hg1, Except.bind, Except.map,
      isOkE] at hok
  rcases ht1 : u_to_metric t1 ru with e | Ut1
  · unfold estimate_u_value at hok
    simp [estimate_raw, hswdef, hw, hh, hgl, hg1, ht1, Except.bind, Except.map,
      isOkE] at hok
  rcases hg2 : u_to_metric g2 ru with e | Ug2
  · unfold estimate_u_value at hok
    simp [estimate_raw, hswdef, hw, hh, hgl, hg1, ht1, hg2, Except.bind,
      Except.map, isOkE] at hok
  rcases ht2 : u_to_metric t2 ru with e | Ut2
  · unfold estimate_u_value at hok
    simp [estimate_raw, hswdef, hw, hh, hgl, hg1, ht1, hg2, ht2, Except.bind,
      Except.map, isOkE] at hok
  unfold estimate_u_value
  simp only [estimate_raw, hswdef, hw, hh, hgl, hg1, ht1, hg2, ht2,
    Except.bind]
  simp only [Except.map, roundResult_scaled_width, roundResult_scaled_height,
    roundResult_frame_width, roundResult_edge_zone, roundResult_areas,
    raw_of_scaled_width, raw_of_scaled_height, raw_of_frame_width,
    raw_of_edge_zone, raw_of_A_total]

/-- Witness for C5 at the claim's own example: panels = 4, width 24 ft,
height 12 ft, so the effective width is 12 ft = 3657.6 mm and the height
stays 12 ft = 3657.6 mm. -/
theorem panel_scaling_w :
    (estimate_u_value 24 12 "ft" 0.3 "BTU" 4 0.25 0.41 0.30 0.46 "BTU" 0 0.6).map
        (fun r => (r.debug.scaled_width, r.debug.scaled_height,
          r.debug.frame_width_mm, r.debug.edge_zone_mm, r.areas_m2.A_total)) =
      .ok (12, 12, (dynamic_frame_and_edge 3657.6 3657.6).1,
        (dynamic_frame_and_edge 3657.6 3657.6).2, 3657.6 * 3657.6 / 1000000) := by
  have hok : isOkE (estimate_u_value 24 12 "ft" 0.3 "BTU" 4 0.25 0.41 0.30 0.46
      "BTU" 0 0.6) = true := by
    have heq := estimate_raw_eq_ok 24 12 12 "ft" "BTU" "BTU" 0.3 4
      0.25 0.41 0.30 0.46 0 0.6 3657.6 3657.6
      (0.3 * BTU_TO_W) (0.25 * BTU_TO_W) (0.41 * BTU_TO_W) (0.30 * BTU_TO_W)
      (0.46 * BTU_TO_W)
      (by norm_num) (by rw [length_to_mm_ft]; norm_num)
      (by rw [length_to_mm_ft]; norm_num)
      (u_to_metric_BTU 0.3) (u_to_metric_BTU 0.25) (u_to_metric_BTU 0.41)
      (u_to_metric_BTU 0.30) (u_to_metric_BTU 0.46)
    unfold estimate_u_value
    rw [heq]
    rfl
  exact panel_scaling 24 12 "ft" "BTU" "BTU" 0.3 4 0.25 0.41 0.30 0.46 0 0.6
    12 3657.6 3657.6 (by norm_num) (by rw [length_to_mm_ft]; norm_num)
    (by rw [length_to_mm_ft]; norm_num) hok

/-- C9 counterexample: with glass_u = 0.2512 BTU the returned U_glass
component is 0.2512 * 5.678 = 1.42631336 W/m²K, which is not a multiple of
1/1000, so it is not rounded to 3 decimal places - refuting "every
intermediate component U-value rounded to 3 decimals". -/
theorem rounding_ce :
    (estimate_u_value 2 2 "m" 0.2512 "BTU" 2 0.25 0.41 0.30 0.46 "BTU" 0 0.6).map
        (fun r => r.U_components_metric.U_glass) = .ok (0.2512 * BTU_TO_W) ∧
      ¬ ∃ k : ℤ, (0.2512 * BTU_TO_W : ℝ) = (k : ℝ) / 1000 := by
  constructor
  · have heq := estimate_raw_eq_ok 2 2 2 "m" "BTU" "BTU" 0.2512 2
      0.25 0.41 0.30 0.46 0 0.6 (2 * 1000.0) (2 * 1000.0)
      (0.2512 * BTU_TO_W) (0.25 * BTU_TO_W) (0.41 * BTU_TO_W) (0.30 * BTU_TO_W)
      (0.46 * BTU_TO_W)
      (by norm_num) (length_to_mm_m 2) (length_to_mm_m 2)
      (u_to_metric_BTU 0.2512) (u_to_metric_BTU 0.25) (u_to_metric_BTU 0.41)
      (u_to_metric_BTU 0.30) (u_to_metric_BTU 0.46)
    unfold estimate_u_value
    rw [heq]
    simp only [Except.map, roundResult_U_glass, raw_of_U_glass]
  · rintro ⟨k, hk⟩
    rw [show (BTU_TO_W : ℝ) = 5.678 from rfl] at hk
    norm_num at hk
    field_simp at hk
    have h3 : (445723 * 1000 : ℤ) = k * 312500 := by exact_mod_cast hk
    omega

/-- C9 amended: for every run, the returned result applies 3-decimal
rounding to the two final U-values and to the U_edge, U_frame_raw and
U_frame_adjusted components, while U_glass and all the diagnostic fields
(aspect ratio, size factor, frame width, edge zone, scaled width/height,
panel count) and the areas are passed through unrounded; and round3 always
produces an integer multiple of 1/1000 lying within 1/2000 of its
argument. -/
theorem rounding_policy (width height : ℝ) (su gu ru : String) (glass_u : ℝ)
    (p : ℤ) (g1 t1 g2 t2 rf re : ℝ) :
    estimate_u_value width height su glass_u gu p g1 t1 g2 t2 ru rf re =
      (estimate_raw width height su glass_u gu p g1 t1 g2 t2 ru rf re).map
        (fun r =>
          { U_metric := round3 r.U_final_metric
            U_btu := round3 r.U_final_btu
            areas_m2 := r.areas
            U_components_metric :=
              { U_glass := r.U_glass_metric
                U_edge := round3 r.U_edge_metric
                U_frame_raw := round3 r.U_frame_metric
                U_frame_adjusted := round3 r.U_frame_adj_metric }
            debug :=
              { a_ratio := r.a_ratio
                s_factor := r.s_factor
                frame_width_mm := r.frame_width_mm
                edge_zone_mm := r.edge_zone_mm
                scaled_width := r.scaled_width
                scaled_height := r.scaled_height
                panels := r.panels } }) ∧
    (∀ x : ℝ, (∃ k : ℤ, round3 x = (k : ℝ) / 1000) ∧ |round3 x - x| ≤ 1 / 2000) :=
  ⟨rfl, fun x => ⟨⟨roundHalfEven (1000 * x), rfl⟩, round3_close x⟩⟩

end UValue
